import Mathlib

/-!
A shallow embedding of the FoundationDB data distributor
(`fdbserver/DataDistribution.actor.cpp`) and proofs about it.

Conventions of the embedding:
* 128-bit unique identifiers (`UID`) are modelled as `Nat`.
* Keys are byte strings, modelled as `List Nat` with lexicographic order.
* Stateful actors become pure functions over explicit state; a transaction
  retry schedule is passed in explicitly where a claim depends on it.
* Fallible code returns `Except`/`Option`; trace events are accumulated in
  lists.
-/

namespace DD

/-- Server / shard / data-move identifiers (128-bit UIDs in the source). -/
abbrev UID := Nat

/-- A key is a byte string. -/
abbrev Key := List Nat

/-- Modelled from the spec: the distinguished `anonymous` identifier that
marks legacy shards with no associated move metadata (`anonymousShardId`,
declared outside `src/`). Its only relevant property is being a fixed,
distinguished value. -/
def anonymousShardId : UID := 0

/-- `allKeys.begin`: the empty byte string. -/
def allKeysBegin : Key := []

/-- `allKeys.end`: the maximal system key boundary (two 0xff bytes). -/
def allKeysEnd : Key := [255, 255]

/-- Strict lexicographic order on byte-string keys. -/
def keyLt : Key → Key → Bool
  | [], [] => false
  | [], _ :: _ => true
  | _ :: _, [] => false
  | a :: as, b :: bs => if a < b then true else if b < a then false else keyLt as bs

/-- Non-strict lexicographic order on byte-string keys. -/
def keyLe (a b : Key) : Bool := keyLt a b || a == b

/-- A half-open key range `[begin, end)`. -/
structure KeyRange where
  first : Key
  last : Key
  deriving Repr, DecidableEq

/-- `KeyRangeRef::contains` for ranges: `r` contains `s` iff
`r.begin <= s.begin` and `s.end <= r.end`. -/
def rangeContains (r s : KeyRange) : Bool :=
  keyLe r.first s.first && keyLe s.last r.last

/-- `DDShardInfo`: the unit of placement read back from the key-server map
(declared in `DataDistribution.actor.h`; field set as used by
`DataDistribution.actor.cpp`). -/
structure DDShardInfo where
  key : Key
  srcId : UID := anonymousShardId
  destId : UID := anonymousShardId
  primarySrc : List UID := []
  remoteSrc : List UID := []
  primaryDest : List UID := []
  remoteDest : List UID := []
  hasDest : Bool := false
  deriving Repr, DecidableEq

/-- `DataMoveMetaData`: the persisted description of a data move. -/
structure DataMoveMetaData where
  id : UID
  range : KeyRange
  src : List UID := []
  dest : List UID := []
  deriving Repr, DecidableEq

/-- `DataMove`: a persisted move record restored by the initial-state
reader, with the partition of `src`/`dest` into primary/remote servers. -/
structure DataMove where
  meta : DataMoveMetaData
  primarySrc : List UID := []
  remoteSrc : List UID := []
  primaryDest : List UID := []
  remoteDest : List UID := []
  valid : Bool := false
  cancelled : Bool := false
  deriving Repr, DecidableEq

/-- Modelled from the spec: `DataMove::isCancelled` (declared in
`DataDistribution.actor.h`, not under `src/`): a move is recovered as a
cancellation when the record exists (`valid`) and was marked `cancelled`. -/
def DataMove.isCancelled (d : DataMove) : Bool := d.valid && d.cancelled

/-- The reasons of the `DataMoveValidationError` trace events emitted by
`DataMove::validateShard`. -/
inductive ValidationEvent where
  | dataMoveMissing
  | shardMissingDest
  | dataMoveIDMissMatch
  | dataMoveDestMissMatch
  deriving Repr, DecidableEq

/-- `std::includes` on two sorted UID lists: every element of the second
list (with multiplicity) occurs in the first. -/
def includesSorted : List UID → List UID → Bool
  | _, [] => true
  | [], _ :: _ => false
  | a :: as, b :: bs =>
    if b < a then false
    else if a < b then includesSorted as (b :: bs)
    else includesSorted as bs

/-- `DataMove::validateShard(shard, range)`: cross-validates one shard
against the data move overlapping it.  Returns `none` when the internal
assertion `meta.range.contains(range)` fails, otherwise the list of
emitted `SevError DataMoveValidationError` events and the new value of the
move's `cancelled` flag. -/
def DataMove.validateShard (d : DataMove) (shard : DDShardInfo) (range : KeyRange) :
    Option (List ValidationEvent × Bool) :=
  if !d.valid then
    if shard.hasDest && shard.destId ≠ anonymousShardId then
      some ([.dataMoveMissing], d.cancelled)
    else
      some ([], d.cancelled)
  else if !rangeContains d.meta.range range then
    none
  else if !shard.hasDest then
    some ([.shardMissingDest], true)
  else if shard.destId ≠ d.meta.id then
    some ([.dataMoveIDMissMatch], true)
  else if !includesSorted d.primaryDest shard.primaryDest
      || !includesSorted d.remoteDest shard.remoteDest then
    some ([.dataMoveDestMissMatch], true)
  else
    some ([], d.cancelled)

/-- One entry of the server list: a storage server interface joined with
its worker's process class (the `id_data` join in the source). -/
structure ServerEntry where
  id : UID
  dcId : Option Nat
  isTss : Bool
  processClass : Nat := 0
  deriving Repr, DecidableEq

/-- One decoded entry of the key-server range map:
`(src[], dest[], srcId, destId)` stored at `key`. -/
structure KeyServersEntry where
  key : Key
  src : List UID := []
  dest : List UID := []
  srcId : UID := anonymousShardId
  destId : UID := anonymousShardId
  deriving Repr, DecidableEq

/-- Modelled from the spec: the sentinel "ignore SS failures" zone id
(`ignoreSSFailuresZoneString`, defined outside `src/`). -/
def ignoreSSFailuresZone : Nat := 0

/-- The slice of the system keyspace read by `getInitialDataDistribution`,
as of the read version of its transaction.  The chunked key-server scan is
modelled as a single chunk (`keyServers` listing every boundary up to and
including `allKeys.end`), which is the fidelity the claims need. -/
structure DBState where
  healthyZoneValue : Option (Nat × Nat) := none
  readVersion : Nat := 0
  ddModeValue : Option Int := none
  serverList : List ServerEntry := []
  dataMoves : List DataMoveMetaData := []
  keyServers : List KeyServersEntry := []
  shardEncodeLocationMetadata : Bool := false
  deriving Repr

/-- `InitialDataDistribution`: the immutable startup snapshot.  The
`std::set`s of teams are modelled as dedup-on-insert lists and the
key-range map of moves as the list of its inserted ranges. -/
structure InitialDataDistribution where
  mode : Int := 1
  initHealthyZoneValue : Option Nat := none
  allServers : List ServerEntry := []
  primaryTeams : List (List UID) := []
  remoteTeams : List (List UID) := []
  shards : List DDShardInfo := []
  dataMoveMap : List (KeyRange × DataMove) := []
  deriving Repr

/-- A server is remote iff its datacenter id appears in the configured
remote datacenter list (`std::find` over `remoteDcIds`). -/
def isRemoteDc (remoteDcIds : List (Option Nat)) (dc : Option Nat) : Bool :=
  remoteDcIds.contains dc

/-- Ascending insertion used to model `std::sort`. -/
def insertAsc (x : UID) : List UID → List UID
  | [] => [x]
  | y :: ys => if x ≤ y then x :: y :: ys else y :: insertAsc x ys

/-- `std::sort` on a UID vector (ascending). -/
def sortAsc (l : List UID) : List UID := l.foldr insertAsc []

/-- `server_dc[id]`: map lookup, defaulting to the absent datacenter (the
C++ `std::map::operator[]` default-constructs `Optional<Key>()`). -/
def dcOf (server_dc : List (UID × Option Nat)) (id : UID) : Option Nat :=
  (server_dc.lookup id).getD none

/-- Build a restored `DataMove` from its persisted metadata: split `src`
and `dest` into primary/remote by datacenter membership and sort all four
lists (`getInitialDataDistribution`, data-move loop of phase 1). -/
def buildDataMove (server_dc : List (UID × Option Nat)) (remoteDcIds : List (Option Nat))
    (meta : DataMoveMetaData) : DataMove :=
  { meta := meta
    primarySrc := sortAsc (meta.src.filter (fun id => !isRemoteDc remoteDcIds (dcOf server_dc id)))
    remoteSrc := sortAsc (meta.src.filter (fun id => isRemoteDc remoteDcIds (dcOf server_dc id)))
    primaryDest := sortAsc (meta.dest.filter (fun id => !isRemoteDc remoteDcIds (dcOf server_dc id)))
    remoteDest := sortAsc (meta.dest.filter (fun id => isRemoteDc remoteDcIds (dcOf server_dc id)))
    valid := true
    cancelled := false }

/-- Two half-open ranges intersect (used by the overlap assertion when
inserting into the data-move range map). -/
def rangesIntersect (r s : KeyRange) : Bool :=
  keyLt r.first s.last && keyLt s.first r.last

/-- Insert the data moves into the range map, checking the source's
assertion that no valid entry already overlaps each inserted range
(`ASSERT(!r.value()->valid)`); `none` models the assertion firing. -/
def insertDataMoves (server_dc : List (UID × Option Nat)) (remoteDcIds : List (Option Nat)) :
    List DataMoveMetaData → Option (List (KeyRange × DataMove))
  | [] => some []
  | meta :: rest => do
    let tail ← insertDataMoves server_dc remoteDcIds rest
    if rest.any (fun m => rangesIntersect meta.range m.range) then none
    else some ((meta.range, buildDataMove server_dc remoteDcIds meta) :: tail)

/-- Process the server list of one phase-1 attempt: regular servers go to
`allServers` and the `server_id -> datacenter` map, test-storage servers
are set aside (lines 167-175 of the source).  Returns
`(allServers, server_dc, tss)` in read order. -/
def processServerList (serverList : List ServerEntry) :
    List ServerEntry × List (UID × Option Nat) × List ServerEntry :=
  (serverList.filter (fun s => !s.isTss),
   (serverList.filter (fun s => !s.isTss)).map (fun s => (s.id, s.dcId)),
   serverList.filter (fun s => s.isTss))

/-- The result of phase 1 of `getInitialDataDistribution`. -/
structure Phase1Out where
  mode : Int
  initHealthyZoneValue : Option Nat
  earlyReturn : Bool
  allServers : List ServerEntry
  server_dc : List (UID × Option Nat)
  tss : List ServerEntry
  dataMoveEntries : List (KeyRange × DataMove)
  deriving Repr

/-- Decoded `healthyZoneKey` handling of phase 1: keep the zone iff it has
not expired at the transaction's read version or it is the "ignore SS
failures" sentinel. -/
def decodeHealthyZone (db : DBState) : Option Nat :=
  match db.healthyZoneValue with
  | some (zone, expiry) =>
    if expiry > db.readVersion || zone = ignoreSSFailuresZone then some zone else none
  | none => none

/-- One phase-1 transaction body with its retry loop
(`getInitialDataDistribution`, lines 125-219).  `failures` counts how many
times the attempt aborts retryably at the data-move read — the last wait
of the attempt, at which point the server list has already been processed.
Each attempt starts by clearing `server_dc` and `result->allServers`
(lines 126-127); the `tss_servers` accumulator is NOT cleared by the
source and therefore persists across attempts.  `none` models the
data-move overlap assertion firing. -/
def phase1 (db : DBState) (ddEnabled : Bool) (remoteDcIds : List (Option Nat)) :
    Nat → List ServerEntry → Option Phase1Out
  | failures, tss0 =>
    -- attempt start: server_dc.clear(); result->allServers.clear()
    let healthy := decodeHealthyZone db
    let mode := db.ddModeValue.getD 1
    if mode = 0 || !ddEnabled then
      -- DD disabled: return the snapshot as it stands, before any server
      -- or shard has been recorded (line 155)
      some { mode := mode, initHealthyZoneValue := healthy, earlyReturn := true,
             allServers := [], server_dc := [], tss := tss0, dataMoveEntries := [] }
    else
      let (srvs, dc, tssNew) := processServerList db.serverList
      let tss1 := tss0 ++ tssNew
      match failures with
      | f + 1 => phase1 db ddEnabled remoteDcIds f tss1
      | 0 => do
        let entries ← insertDataMoves dc remoteDcIds db.dataMoves
        some { mode := mode, initHealthyZoneValue := healthy, earlyReturn := false,
               allServers := srvs, server_dc := dc, tss := tss1, dataMoveEntries := entries }

/-- Insert a team into one of the snapshot's `std::set`s of teams
(dedup on insert). -/
def insertTeam (t : List UID) (ts : List (List UID)) : List (List UID) :=
  if ts.contains t then ts else ts ++ [t]

/-- The team cache of phase 2: raw `src`/`dest` vector to its
`(primary, remote)` partition. -/
abbrev TeamCache := List (List UID × (List UID × List UID))

/-- Accumulator of the phase-2 key-server scan. -/
structure Phase2Acc where
  shards : List DDShardInfo := []
  primaryTeams : List (List UID) := []
  remoteTeams : List (List UID) := []
  cache : TeamCache := []
  deriving Repr

/-- Phase-2 loop body for one adjacent key-server pair (lines 243-302):
build a `DDShardInfo`, partition `src`/`dest` by datacenter through the
team cache, and record the teams. -/
def phase2Step (server_dc : List (UID × Option Nat)) (remoteDcIds : List (Option Nat))
    (acc : Phase2Acc) (e : KeyServersEntry) : Phase2Acc :=
  let info0 : DDShardInfo := { key := e.key, srcId := e.srcId, destId := e.destId }
  if remoteDcIds ≠ [] then
    let (info1, pt1, rt1, c1) :=
      match acc.cache.lookup e.src with
      | none =>
        let psrc := e.src.filter (fun id => !isRemoteDc remoteDcIds (dcOf server_dc id))
        let rsrc := e.src.filter (fun id => isRemoteDc remoteDcIds (dcOf server_dc id))
        ({ info0 with primarySrc := psrc, remoteSrc := rsrc },
         insertTeam psrc acc.primaryTeams, insertTeam rsrc acc.remoteTeams,
         acc.cache ++ [(e.src, (psrc, rsrc))])
      | some (p, r) =>
        ({ info0 with primarySrc := p, remoteSrc := r },
         acc.primaryTeams, acc.remoteTeams, acc.cache)
    let (info2, pt2, rt2, c2) :=
      if e.dest ≠ [] then
        match c1.lookup e.dest with
        | none =>
          let pdest := e.dest.filter (fun id => !isRemoteDc remoteDcIds (dcOf server_dc id))
          let rdest := e.dest.filter (fun id => isRemoteDc remoteDcIds (dcOf server_dc id))
          ({ info1 with hasDest := true, primaryDest := pdest, remoteDest := rdest },
           insertTeam pdest pt1, insertTeam rdest rt1, c1 ++ [(e.dest, (pdest, rdest))])
        | some (p, r) =>
          ({ info1 with hasDest := true, primaryDest := p, remoteDest := r }, pt1, rt1, c1)
      else (info1, pt1, rt1, c1)
    { shards := acc.shards ++ [info2], primaryTeams := pt2, remoteTeams := rt2, cache := c2 }
  else
    let info1 := { info0 with primarySrc := e.src }
    let (pt1, c1) :=
      match acc.cache.lookup e.src with
      | none => (insertTeam e.src acc.primaryTeams, acc.cache ++ [(e.src, ([], []))])
      | some _ => (acc.primaryTeams, acc.cache)
    let (info2, pt2, c2) :=
      if e.dest ≠ [] then
        match c1.lookup e.dest with
        | none => ({ info1 with hasDest := true, primaryDest := e.dest },
                   insertTeam e.dest pt1, c1 ++ [(e.dest, ([], []))])
        | some _ => ({ info1 with hasDest := true, primaryDest := e.dest }, pt1, c1)
      else (info1, pt1, c1)
    { shards := acc.shards ++ [info2], primaryTeams := pt2, remoteTeams := acc.remoteTeams,
      cache := c2 }

/-- Phase-2 scan over the adjacent pairs of the key-server chunk: entry
`i` is decoded for the range `[key_i, key_{i+1})`; the final boundary
entry only closes the last range. -/
def phase2Scan (server_dc : List (UID × Option Nat)) (remoteDcIds : List (Option Nat))
    (acc : Phase2Acc) : List KeyServersEntry → Phase2Acc
  | e :: next :: rest =>
    phase2Scan server_dc remoteDcIds (phase2Step server_dc remoteDcIds acc e) (next :: rest)
  | _ => acc

/-- Find the data-move map entry whose inserted range contains `k`
(`result->dataMoveMap[keys.begin]`); `none` means the default (invalid)
move of the range map. -/
def lookupMove (entries : List (KeyRange × DataMove)) (k : Key) : Option (KeyRange × DataMove) :=
  entries.find? (fun e => keyLe e.1.first k && keyLt k e.1.last)

/-- Set the `cancelled` flag of the map entry containing `k`. -/
def updateMoveCancelled (entries : List (KeyRange × DataMove)) (k : Key) (c : Bool) :
    List (KeyRange × DataMove) :=
  entries.map (fun e =>
    if keyLe e.1.first k && keyLt k e.1.last then (e.1, { e.2 with cancelled := c }) else e)

/-- The cross-validation pass (lines 321-327): for each non-sentinel
shard, fetch the overlapping move and run `validateShard`, accumulating
the emitted events and the `cancelled` updates.  `none` models the
`validateShard` range assertion firing. -/
def validateShards (entries : List (KeyRange × DataMove)) (events : List ValidationEvent) :
    List DDShardInfo → Option (List (KeyRange × DataMove) × List ValidationEvent)
  | iShard :: next :: rest => do
    let keys : KeyRange := { first := iShard.key, last := next.key }
    let dm := (lookupMove entries iShard.key).map (·.2) |>.getD { meta := { id := anonymousShardId, range := keys } }
    let (evs, cancelled) ← dm.validateShard iShard keys
    validateShards (updateMoveCancelled entries iShard.key cancelled) (events ++ evs) (next :: rest)
  | _ => some (entries, events)

/-- `getInitialDataDistribution(cx, distributorId, lock, remoteDcIds,
ddEnabledState)`: the whole initial-state reader.  `phase1Failures` is the
number of retryable aborts of the phase-1 transaction.  Returns the
snapshot, the validation events, and the number of transactions used
(phase 1 counts as one transaction, retries included; the single-chunk
phase-2 scan as one more); `none` models an internal assertion firing. -/
def getInitialDataDistribution (db : DBState) (ddEnabled : Bool)
    (remoteDcIds : List (Option Nat)) (phase1Failures : Nat) :
    Option (InitialDataDistribution × List ValidationEvent × Nat) := do
  let p1 ← phase1 db ddEnabled remoteDcIds phase1Failures []
  if p1.earlyReturn then
    -- the early return hands back the snapshot exactly as phase 1 left it
    some ({ mode := p1.mode, initHealthyZoneValue := p1.initHealthyZoneValue,
            allServers := p1.allServers, dataMoveMap := p1.dataMoveEntries }, [], 1)
  else
    let acc := phase2Scan p1.server_dc remoteDcIds {} db.keyServers
    -- a dummy shard at the end with no keys or servers (line 319)
    let shards := acc.shards ++ [{ key := allKeysEnd }]
    let (entries, events) ←
      if db.shardEncodeLocationMetadata then
        validateShards p1.dataMoveEntries [] shards
      else
        some (p1.dataMoveEntries, [])
    -- add tss to server list AFTER teams are built (lines 330-332)
    some ({ mode := p1.mode, initHealthyZoneValue := p1.initHealthyZoneValue,
            allServers := p1.allServers ++ p1.tss,
            primaryTeams := acc.primaryTeams, remoteTeams := acc.remoteTeams,
            shards := shards, dataMoveMap := entries }, events, 2)

/-- `RelocateShard`: a relocation request sent to the DD queue.  Only the
fields used by the supervisor seeding loop are modelled; `dataMoveId` is
`none` when the request does not carry a move id. -/
structure RelocateShard where
  keys : KeyRange
  priority : Int
  dataMoveId : Option UID := none
  cancelled : Bool := false
  deriving Repr, DecidableEq

/-- Modelled from the spec: the relevant relocation priority knobs
(`SERVER_KNOBS`, defined outside `src/`); only their identity matters. -/
def PRIORITY_RECOVER_MOVE : Int := 110

/-- Modelled from the spec: `SERVER_KNOBS->PRIORITY_TEAM_UNHEALTHY`. -/
def PRIORITY_TEAM_UNHEALTHY : Int := 700

/-- The per-data-move part of the supervisor seeding loop
(`dataDistribution`, iteration over `initData->dataMoveMap.ranges()`):
a cancelled move — or a valid one when the location-metadata knob is off —
is enqueued as a cancellation relocation carrying the move's id; a valid
move is re-enqueued as a recover move.  The returned list is the sequence
of relocations sent (via `output.send` or the `DD_FRAMEWORK` event
buffer, both of which carry the same `RelocateShard`). -/
def seedDataMoves (shardEncodeLocationMetadata : Bool) :
    List (KeyRange × DataMove) → List RelocateShard
  | [] => []
  | (_, dm) :: rest =>
    (if dm.isCancelled || (dm.valid && !shardEncodeLocationMetadata) then
      [{ keys := dm.meta.range, priority := PRIORITY_RECOVER_MOVE,
         dataMoveId := some dm.meta.id, cancelled := true }]
    else if dm.valid then
      [{ keys := dm.meta.range, priority := PRIORITY_RECOVER_MOVE,
         dataMoveId := some dm.meta.id, cancelled := false }]
    else []) ++ seedDataMoves shardEncodeLocationMetadata rest

/-- The configuration fields the supervisor seeding loop consults. -/
structure DDConfig where
  storageTeamSize : Nat
  usableRegions : Nat
  deriving Repr

/-- The per-shard part of the supervisor seeding loop (`dataDistribution`,
lines 936-1005, restricted to the relocations it sends): for each
non-sentinel shard whose `destId` is anonymous while a move is in flight,
schedule a recover move whose priority is `PRIORITY_TEAM_UNHEALTHY` when a
source team has the wrong size (the remote team counting only with more
than one usable region), else `PRIORITY_RECOVER_MOVE`. -/
def seedShards (cfg : DDConfig) : List DDShardInfo → List RelocateShard
  | s :: next :: rest =>
    (if s.hasDest && s.destId = anonymousShardId then
      let unhealthy0 : Bool := s.primarySrc.length ≠ cfg.storageTeamSize
      let unhealthy : Bool :=
        if !unhealthy0 && cfg.usableRegions > 1 then
          s.remoteSrc.length ≠ cfg.storageTeamSize
        else unhealthy0
      let priority := if unhealthy then PRIORITY_TEAM_UNHEALTHY else PRIORITY_RECOVER_MOVE
      [{ keys := { first := s.key, last := next.key }, priority := priority }]
    else []) ++ seedShards cfg (next :: rest)
  | _ => []

/-- `StorageMetadataType`: per-server metadata ordering the wiggle queue
(declared in `DataDistribution.actor.h`, not under `src/`; field set from
the self-test's constructor calls). -/
structure StorageMetadataType where
  createdTime : Nat
  storeType : Nat := 0
  wiggleFlag : Bool := false
  deriving Repr, DecidableEq

/-- Modelled from the spec: the wiggle-queue comparator (declared outside
`src/`): wiggle-eligible servers come first, within each class ascending
`createdTime`, with the server id as total deterministic tie-break. -/
def wiggleBefore (a b : StorageMetadataType × UID) : Bool :=
  if a.1.wiggleFlag ≠ b.1.wiggleFlag then a.1.wiggleFlag
  else if a.1.createdTime ≠ b.1.createdTime then a.1.createdTime < b.1.createdTime
  else a.2 < b.2

/-- `StorageWiggler` state: the addressable priority queue (modelled as
the list of queued `(metadata, id)` pairs; the handle index is the
membership of an id) and the non-emptiness notifier. -/
structure StorageWiggler where
  pq : List (StorageMetadataType × UID) := []
  nonEmpty : Bool := false
  deriving Repr, DecidableEq

/-- `StorageWiggler::addServer`: asserts the id is not queued yet
(`ASSERT(!pq_handles.count(serverId))`, modelled by `none`), inserts, and
raises the non-emptiness notifier. -/
def StorageWiggler.addServer (w : StorageWiggler) (serverId : UID)
    (metadata : StorageMetadataType) : Option StorageWiggler :=
  if w.pq.any (fun x => x.2 = serverId) then none
  else some { pq := w.pq ++ [(metadata, serverId)], nonEmpty := true }

/-- `StorageWiggler::removeServer`: erase the id if still queued; update
the notifier from the remaining queue. -/
def StorageWiggler.removeServer (w : StorageWiggler) (serverId : UID) : StorageWiggler :=
  let pq := w.pq.filter (fun x => x.2 ≠ serverId)
  { pq := pq, nonEmpty := !pq.isEmpty }

/-- The head of the wiggle queue: the minimal entry under the comparator
(the first such entry on ties, though `wiggleBefore` is total on distinct
ids). -/
def pqTop : List (StorageMetadataType × UID) → Option (StorageMetadataType × UID)
  | [] => none
  | x :: xs => some (xs.foldl (fun b a => if wiggleBefore a b then a else b) x)

/-- `StorageWiggler::getNextServerId`: pop the head, returning `none` on
an empty queue; the notifier is not touched. -/
def StorageWiggler.getNextServerId (w : StorageWiggler) : Option UID × StorageWiggler :=
  match pqTop w.pq with
  | none => (none, w)
  | some x => (some x.2, { w with pq := w.pq.erase x })

/-- Number of present (non-error) results among a list of timed
`ErrorOr` futures `(completionTime, present?)`. -/
def presentCount (futures : List (Nat × Bool)) : Nat :=
  (futures.filter (fun f => f.2)).length

/-- Number of present results completed by time `t`. -/
def countLE (futures : List (Nat × Bool)) (t : Nat) : Nat :=
  (futures.filter (fun f => f.2 && f.1 ≤ t)).length

/-- The time at which every future has completed. -/
def maxAll (futures : List (Nat × Bool)) : Nat :=
  futures.foldr (fun f m => max f.1 m) 0

/-- First time from `start` (searching `fuel` steps) at which `p` holds;
`start + fuel` if none is found earlier. -/
def firstReach (p : Nat → Bool) : Nat → Nat → Nat
  | start, 0 => start
  | start, fuel + 1 => if p start then start else firstReach p (start + 1) fuel

/-- Modelled from the spec: the completion time of
`quorumEqualsTrue(successFutures, q)` on the success path (the primitive
lives in `flow`, outside `src/`): the earliest time at which `q` present
results have completed. -/
def quorumTime (futures : List (Nat × Bool)) (q : Nat) : Nat :=
  firstReach (fun t => q ≤ countLE futures t) 0 (maxAll futures)

/-- `waitForMost(futures, faultTolerance, e, waitMultiplierForSlowFutures)`
over timed futures: throw `e` (modelled as `.error ()`) unless
`n - faultTolerance` results are present; otherwise return at the quorum
time plus the relative grace delay, cut short once all futures are done
(`wait(delay((now() - startTime) * waitMultiplier) || waitForAll(...))`). -/
def waitForMost (futures : List (Nat × Bool)) (faultTolerance : Nat) (mult : Nat) :
    Except Unit Nat :=
  let q := futures.length - faultTolerance
  if q ≤ presentCount futures then
    let tq := quorumTime futures q
    .ok (min (tq + tq * mult) (max tq (maxAll futures)))
  else
    .error ()

/-- The errors of the snapshot orchestrator. -/
inductive SnapError where
  | snapDisableTLogPopFailed
  | snapStorageFailed
  | snapTLogFailed
  | snapEnableTLogPopFailed
  | snapCoordFailed
  | operationCancelled
  deriving Repr, DecidableEq

/-- The waits of `ddSnapCreateCore` at which a cancellation can strike. -/
inductive SnapStep where
  | disablePops
  | getWorkers
  | storageWait
  | tlogWait
  | enableWait
  | coordWait
  | clearFlag
  deriving Repr, DecidableEq

/-- The outward-visible actions of `ddSnapCreateCore` (requests are sent
before their wait, so a step's sends appear even when its wait fails). -/
inductive SnapEvent where
  | writeFlag
  | disablePop (log : Nat)
  | storageSnap (w : Nat)
  | tlogSnap (log : Nat)
  | enablePop (log : Nat)
  | coordSnap (c : Nat)
  | clearFlag
  deriving Repr, DecidableEq

/-- The environment one `ddSnapCreateCore` run observes: the local tlogs,
each remote step's outcome, the knob/configuration values, and where (if
anywhere) the actor is cancelled. -/
structure SnapEnv where
  tlogs : List Nat := []
  disableOk : Bool := true
  getStorageWorkersOk : Bool := true
  storageTeamSize : Int := 3
  maxStorageFT : Int := 1
  storageFailures : Int := 0
  storageWorkers : List Nat := []
  storageSnapOks : List Bool := []
  tlogSnapOk : Bool := true
  enableOk : Bool := true
  coordWorkers : List Nat := []
  coordSnapOks : List Bool := []
  maxCoordFT : Int := 1
  cancelAt : Option SnapStep := none
  deriving Repr

/-- Failed results in a list of per-request outcomes. -/
def failCount (oks : List Bool) : Nat := (oks.filter (fun b => !b)).length

/-- The storage-snapshot fault tolerance of `ddSnapCreateCore`
(lines 1337-1340). -/
def storageFaultTolerance (env : SnapEnv) : Int :=
  min env.maxStorageFT (env.storageTeamSize - 1) - env.storageFailures

/-- The coordinator-snapshot fault tolerance of `ddSnapCreateCore`
(lines 1395-1396). -/
def coordFaultTolerance (env : SnapEnv) : Int :=
  min (max 0 ((env.coordWorkers.length : Int) / 2 - 1)) env.maxCoordFT

/-- The `try` body of `ddSnapCreateCore` (lines 1299-1416): the seven
steps in order, stopping at the first failed or cancelled wait.  Returns
the emitted events and the raised error, if any. -/
def snapTryBody (env : SnapEnv) : List SnapEvent × Option SnapError :=
  let ev2 := SnapEvent.writeFlag :: env.tlogs.map .disablePop
  if env.cancelAt = some .disablePops then (ev2, some .operationCancelled)
  else if !env.disableOk then (ev2, some .snapDisableTLogPopFailed)
  else if env.cancelAt = some .getWorkers then (ev2, some .operationCancelled)
  else if !env.getStorageWorkersOk then (ev2, some .snapStorageFailed)
  else if storageFaultTolerance env < 0 then (ev2, some .snapStorageFailed)
  else
    let ev3 := ev2 ++ env.storageWorkers.map .storageSnap
    if env.cancelAt = some .storageWait then (ev3, some .operationCancelled)
    else if (failCount env.storageSnapOks : Int) > storageFaultTolerance env then
      (ev3, some .snapStorageFailed)
    else
      let ev4 := ev3 ++ env.tlogs.map .tlogSnap
      if env.cancelAt = some .tlogWait then (ev4, some .operationCancelled)
      else if !env.tlogSnapOk then (ev4, some .snapTLogFailed)
      else
        let ev5 := ev4 ++ env.tlogs.map .enablePop
        if env.cancelAt = some .enableWait then (ev5, some .operationCancelled)
        else if !env.enableOk then (ev5, some .snapEnableTLogPopFailed)
        else
          let ev6 := ev5 ++ env.coordWorkers.map .coordSnap
          if env.cancelAt = some .coordWait then (ev6, some .operationCancelled)
          else if (failCount env.coordSnapOks : Int) > coordFaultTolerance env then
            (ev6, some .snapCoordFailed)
          else
            let ev7 := ev6 ++ [SnapEvent.clearFlag]
            if env.cancelAt = some .clearFlag then (ev7, some .operationCancelled)
            else (ev7, none)

/-- The error codes for which the `catch` of `ddSnapCreateCore` attempts
the best-effort re-enable of tlog popping (lines 1423-1424). -/
def errorTriggersReenable (e : SnapError) : Bool :=
  e = .snapStorageFailed || e = .snapTLogFailed || e = .operationCancelled ||
    e = .snapDisableTLogPopFailed

/-- `ddSnapCreateCore`: the `try` body and its `catch`, which re-enables
tlog popping on every local log for the listed error codes before
rethrowing. -/
def ddSnapCreateCore (env : SnapEnv) : List SnapEvent × Except SnapError Unit :=
  match snapTryBody env with
  | (evs, none) => (evs, .ok ())
  | (evs, some e) =>
    if errorTriggersReenable e then (evs ++ env.tlogs.map .enablePop, .error e)
    else (evs, .error e)

/-- How many `enablePop` requests a run sent to log `l`. -/
def enableCount (evs : List SnapEvent) (l : Nat) : Nat :=
  (evs.filter (fun ev => ev = SnapEvent.enablePop l)).length

/-- The error taxonomy of the supervisor. -/
inductive DDError where
  | movekeysConflict
  | brokenPromise
  | dataMoveCancelled
  | dataMoveDestTeamNotFound
  | actorCancelled
  | workerRemoved
  | pleaseReboot
  | otherFatal (code : Nat)
  deriving Repr, DecidableEq

/-- `normalDDQueueErrors()` (lines 549-558): the allow-set whose members
are not logged at `SevError` by `reportErrorsExcept` around the pipeline
actors. -/
def normalDDQueueErrors : List DDError :=
  [.movekeysConflict, .brokenPromise, .dataMoveCancelled, .dataMoveDestTeamNotFound]

/-- `normalDataDistributorErrors()` (lines 1238-1250): the codes on which
the `dataDistributor` role exits cleanly instead of propagating. -/
def normalDataDistributorErrors : List DDError :=
  [.workerRemoved, .brokenPromise, .actorCancelled, .pleaseReboot, .movekeysConflict,
   .dataMoveCancelled, .dataMoveDestTeamNotFound]

/-- What the teardown of one supervisor catch did. -/
structure TeardownTrace where
  teamCollectionsReleased : Bool
  shardsCleared : Bool
  clearedSynchronously : Bool
  deriving Repr, DecidableEq

/-- Where control goes after the catch of `dataDistribution`. -/
inductive SupervisorOutcome where
  | restartLoop
  | rethrow (e : DDError)
  deriving Repr, DecidableEq

/-- The `catch` of the `dataDistribution` supervisor loop
(lines 1186-1234): release the team collections, clear the shard map
(synchronously when cancelled, else asynchronously), honor a pending
`removeFailedServer`, and either loop back to the lock-acquire step or
rethrow. -/
def supervisorCatch (e : DDError) (removeFailedReady : Bool) (ddStillEnabled : Bool) :
    TeardownTrace × SupervisorOutcome :=
  let teardown := fun sync =>
    { teamCollectionsReleased := true, shardsCleared := true, clearedSynchronously := sync }
  if e = .actorCancelled then (teardown true, .rethrow e)
  else if removeFailedReady then (teardown false, .restartLoop)
  else if e ≠ .movekeysConflict then (teardown false, .rethrow e)
  else if ddStillEnabled then (teardown false, .rethrow e)
  else (teardown false, .restartLoop)

/-- How the `dataDistributor` role reacts to an error propagating out of
the supervisor. -/
inductive RoleOutcome where
  | cleanExit
  | fatal (e : DDError)
  deriving Repr, DecidableEq

/-- The catch of `dataDistributor` (lines 1672-1678): errors in
`normalDataDistributorErrors` end the role cleanly, others are fatal. -/
def dataDistributorRoleOutcome (e : DDError) : RoleOutcome :=
  if normalDataDistributorErrors.contains e then .cleanExit else .fatal e

/-- The slice of `DDTeamCollection` that `ddExclusionSafetyCheck`
consults; `exclusionSafetyCheck` (defined outside `src/`) is kept
abstract as a function field. -/
structure TeamCollectionModel where
  teams : List (List UID)
  exclusionSafetyCheck : List UID → Bool

/-- One storage server interface as the exclusion check sees it. -/
structure SSInterface where
  id : UID
  address : Nat
  secondaryAddress : Option Nat := none
  deriving Repr, DecidableEq

/-- One requested address exclusion; `AddressExclusion::excludes` (defined
outside `src/`) is kept abstract as a predicate on addresses. -/
structure AddressExclusionReq where
  excludes : Nat → Bool

/-- The Address to server-id translation loop of `ddExclusionSafetyCheck`
(lines 1519-1526): outer loop over the exclusions, inner loop over the
server interfaces, matching the primary or secondary address. -/
def translateExclusions (ssis : List SSInterface) : List AddressExclusionReq → List UID
  | [] => []
  | excl :: rest =>
    (ssis.filter (fun ssi =>
      excl.excludes ssi.address ||
        (match ssi.secondaryAddress with
         | some a => excl.excludes a
         | none => false))).map (fun ssi => ssi.id)
      ++ translateExclusions ssis rest

/-- `ddExclusionSafetyCheck`: reply `safe = false` when the pipeline is
not running (`teamCollection` null) or fewer than two teams exist,
otherwise consult the team collection on the translated server ids.  The
reply is always sent; no error is raised. -/
def ddExclusionSafetyCheck (teamCollection : Option TeamCollectionModel)
    (ssis : List SSInterface) (exclusions : List AddressExclusionReq) : Bool :=
  match teamCollection with
  | none => false
  | some tc =>
    if tc.teams.length ≤ 1 then false
    else tc.exclusionSafetyCheck (translateExclusions ssis exclusions)

/-! ## Theorems about the claims -/

/-- Pop `n` ids off a wiggler, returning them in order. -/
def popN (w : StorageWiggler) : Nat → List (Option UID)
  | 0 => []
  | n + 1 =>
    let (r, w2) := w.getNextServerId
    r :: popN w2 n

/-- The wiggler of the repository's self-test
(`/DataDistributor/StorageWiggler/Order`): servers 1-4 with created times
1-4 and wiggle flags false, true, true, false. -/
def wigglerScenario : Option StorageWiggler :=
  (StorageWiggler.addServer {} 1 { createdTime := 1, storeType := 0 }).bind fun w =>
  (w.addServer 2 { createdTime := 2, storeType := 1, wiggleFlag := true }).bind fun w =>
  (w.addServer 3 { createdTime := 3, storeType := 2, wiggleFlag := true }).bind fun w =>
  w.addServer 4 { createdTime := 4, storeType := 0 }

/-- C4: on the self-test wiggler, five successive `getNextServerId` calls
return 2, 3, 1, 4 and then absent; in general the comparator puts
wiggle-eligible servers ahead of the rest and orders each class by
ascending `createdTime`. -/
theorem storageWiggler_order (m₁ m₂ : StorageMetadataType) (i₁ i₂ : UID) :
    wigglerScenario.map (fun w => popN w 5) =
      some [some 2, some 3, some 1, some 4, none] ∧
    (m₁.wiggleFlag = true → m₂.wiggleFlag = false →
      wiggleBefore (m₁, i₁) (m₂, i₂) = true) ∧
    (m₁.wiggleFlag = m₂.wiggleFlag → m₁.createdTime < m₂.createdTime →
      wiggleBefore (m₁, i₁) (m₂, i₂) = true) := by
  refine ⟨by decide, fun h1 h2 => ?_, fun h1 h2 => ?_⟩
  · simp [wiggleBefore, h1, h2]
  · have hne : m₁.createdTime ≠ m₂.createdTime := Nat.ne_of_lt h2
    simp [wiggleBefore, h1, hne, h2]

/-- Witness for `storageWiggler_order` at concrete metadata. -/
theorem storageWiggler_order_witness :
    wiggleBefore ({ createdTime := 2, wiggleFlag := true }, 2)
        ({ createdTime := 1 }, 1) = true ∧
    wiggleBefore ({ createdTime := 2, wiggleFlag := true }, 2)
        ({ createdTime := 3, wiggleFlag := true }, 3) = true :=
  ⟨(storageWiggler_order { createdTime := 2, wiggleFlag := true }
      { createdTime := 1 } 2 1).2.1 rfl rfl,
   (storageWiggler_order { createdTime := 2, wiggleFlag := true }
      { createdTime := 3, wiggleFlag := true } 2 3).2.2 rfl (by decide)⟩

/-- C2: a valid move whose id differs from the shard's `destId` makes
`validateShard` emit exactly one `DataMoveIDMissMatch` validation event
and set `cancelled` without raising an error, and the supervisor seeding
loop turns the cancelled move into one cancellation relocation carrying
the move's id over the move's range. -/
theorem validateShard_id_mismatch (dm : DataMove) (shard : DDShardInfo) (range r : KeyRange)
    (hvalid : dm.valid = true)
    (hcontains : rangeContains dm.meta.range range = true)
    (hdest : shard.hasDest = true)
    (hne : shard.destId ≠ dm.meta.id) :
    dm.validateShard shard range = some ([.dataMoveIDMissMatch], true) ∧
    seedDataMoves true [(r, { dm with cancelled := true })] =
      [{ keys := dm.meta.range, priority := PRIORITY_RECOVER_MOVE,
         dataMoveId := some dm.meta.id, cancelled := true }] := by
  constructor
  · simp [DataMove.validateShard, hvalid, hcontains, hdest, hne]
  · simp [seedDataMoves, DataMove.isCancelled, hvalid]

/-- Witness for `validateShard_id_mismatch` at a concrete move/shard. -/
theorem validateShard_id_mismatch_witness :
    DataMove.validateShard
        { meta := { id := 5, range := { first := [], last := [255, 255] } }, valid := true }
        { key := [], destId := 7, hasDest := true }
        { first := [], last := [9] } = some ([.dataMoveIDMissMatch], true) ∧
    seedDataMoves true
        [({ first := [], last := [9] },
          { meta := { id := 5, range := { first := [], last := [255, 255] } },
            valid := true, cancelled := true })] =
      [{ keys := { first := [], last := [255, 255] }, priority := PRIORITY_RECOVER_MOVE,
         dataMoveId := some 5, cancelled := true }] :=
  validateShard_id_mismatch
    { meta := { id := 5, range := { first := [], last := [255, 255] } }, valid := true }
    { key := [], destId := 7, hasDest := true }
    { first := [], last := [9] } { first := [], last := [9] }
    rfl (by decide) rfl (by decide)

/-- The sentinel shard appended at `allKeys.end` on the full reader path. -/
def sentinelShard : DDShardInfo := { key := allKeysEnd }

/-- A database state whose `dataDistributionModeKey` decodes to 0, with a
non-empty server list. -/
def dbModeZero : DBState :=
  { ddModeValue := some 0
    serverList := [{ id := 10, dcId := none, isTss := false }]
    keyServers := [{ key := allKeysBegin, src := [10], srcId := 3 }, { key := allKeysEnd }] }

/-- C1 counterexample: with `dataDistributionModeKey = 0` the reader
returns after one transaction with `mode = 0` and no servers, but its
`shards` list is empty — not the claimed single-sentinel list (the
sentinel is appended only on the full path, after the early return). -/
theorem getInitialDataDistribution_disabled_shards_empty :
    (getInitialDataDistribution dbModeZero true [] 0).map
        (fun x => (x.1.mode, x.1.allServers, x.1.shards, x.2.2)) =
      some (0, [], [], 1) ∧
    ([] : List DDShardInfo) ≠ [sentinelShard] := by
  constructor
  · rfl
  · decide

/-- C1 amended: whenever the decoded mode is 0 or the in-memory DD-enable
flag is false, the reader returns after its first transaction with the
decoded mode (not necessarily 0 in the flag-only case), an empty
`allServers` list, and an empty `shards` list. -/
theorem getInitialDataDistribution_disabled_early_return (db : DBState) (ddEnabled : Bool)
    (rdc : List (Option Nat)) (f : Nat)
    (h : db.ddModeValue.getD 1 = 0 ∨ ddEnabled = false) :
    getInitialDataDistribution db ddEnabled rdc f =
      some ({ mode := db.ddModeValue.getD 1,
              initHealthyZoneValue := decodeHealthyZone db,
              allServers := [], shards := [], dataMoveMap := [] }, [], 1) := by
  have hcond : (decide (db.ddModeValue.getD 1 = 0) || !ddEnabled) = true := by
    rcases h with h | h
    · simp [h]
    · simp [h]
  cases f <;> simp [getInitialDataDistribution, phase1, hcond]

/-- Witness for `getInitialDataDistribution_disabled_early_return` at
`dbModeZero`. -/
theorem getInitialDataDistribution_disabled_early_return_witness :
    getInitialDataDistribution dbModeZero true [] 3 =
      some ({ mode := 0, initHealthyZoneValue := none,
              allServers := [], shards := [], dataMoveMap := [] }, [], 1) :=
  getInitialDataDistribution_disabled_early_return dbModeZero true [] 3 (Or.inl (by decide))

/-- A database with one regular server (id 1) and one test-storage server
(id 2). -/
def dbWithTss : DBState :=
  { ddModeValue := none
    serverList := [{ id := 1, dcId := none, isTss := false },
                   { id := 2, dcId := none, isTss := true }]
    keyServers := [{ key := allKeysBegin, src := [1], srcId := 3 }, { key := allKeysEnd }] }

/-- C8: when the phase-1 transaction fails once at the data-move read
(after the server list was processed) and then succeeds, the returned
snapshot lists the test-storage server twice — `tss_servers` is not
cleared on retry, although `server_dc` and `allServers` are — while the
same read without a retry lists it once. -/
theorem phase1_retry_duplicates_tss :
    (getInitialDataDistribution dbWithTss true [] 1).map
        (fun x => x.1.allServers.map (fun s => s.id)) = some [1, 2, 2] ∧
    (getInitialDataDistribution dbWithTss true [] 0).map
        (fun x => x.1.allServers.map (fun s => s.id)) = some [1, 2] := by
  constructor
  · rfl
  · rfl

/-- C10: while the pipeline is not running (`teamCollection` null), the
exclusion safety check replies `safe = false` for every request, without
raising an error (the embedding is total, so no error path exists). -/
theorem exclusionSafetyCheck_null_team_collection (ssis : List SSInterface)
    (exclusions : List AddressExclusionReq) :
    ddExclusionSafetyCheck none ssis exclusions = false := rfl

/-- C7 counterexample: `broken_promise` is in the allow-set, yet the
supervisor catch rethrows it (with no pending `removeFailedServer` and DD
enabled) instead of returning to the lock-acquire step. -/
theorem supervisorCatch_broken_promise_rethrows :
    DDError.brokenPromise ∈ normalDDQueueErrors ∧
    (supervisorCatch .brokenPromise false true).2 ≠ .restartLoop := by decide

/-- C7 amended: every error triggers the teardown; the catch loops back
to the lock-acquire step exactly when the error is not a cancellation and
either a `removeFailedServer` request is pending or the error is
`movekeys_conflict` with DD disabled; every other error (allow-set
members included) propagates out of the supervisor loop, where the
`dataDistributor` role treats the `normalDataDistributorErrors` codes as
a clean role exit and everything else as fatal. -/
theorem supervisorCatch_spec (e : DDError) (removeFailedReady ddStillEnabled : Bool) :
    (supervisorCatch e removeFailedReady ddStillEnabled).1.teamCollectionsReleased = true ∧
    (supervisorCatch e removeFailedReady ddStillEnabled).1.shardsCleared = true ∧
    ((supervisorCatch e removeFailedReady ddStillEnabled).2 = .restartLoop ↔
      (e ≠ .actorCancelled ∧
        (removeFailedReady = true ∨ (e = .movekeysConflict ∧ ddStillEnabled = false)))) ∧
    ((supervisorCatch e removeFailedReady ddStillEnabled).2 = .restartLoop ∨
      (supervisorCatch e removeFailedReady ddStillEnabled).2 = .rethrow e) ∧
    (dataDistributorRoleOutcome e = .cleanExit ↔ e ∈ normalDataDistributorErrors) := by
  cases e <;> cases removeFailedReady <;> cases ddStillEnabled <;>
    simp [supervisorCatch, dataDistributorRoleOutcome, normalDataDistributorErrors]

/-- C5: the storage fault tolerance is
`min(MAX_STORAGE_SNAPSHOT_FAULT_TOLERANCE, storageTeamSize - 1) -
observed_failures`; when it is negative, `snap_storage_failed` is raised
before any storage snapshot request is sent; the coordinator fault
tolerance is `min(max(0, count / 2 - 1),
MAX_COORDINATOR_SNAPSHOT_FAULT_TOLERANCE)` and exceeding it raises
`snap_coord_failed`. -/
theorem snapCore_fault_tolerances (env : SnapEnv)
    (hd : env.disableOk = true) (hgw : env.getStorageWorkersOk = true)
    (hc : env.cancelAt = none) :
    (min env.maxStorageFT (env.storageTeamSize - 1) - env.storageFailures < 0 →
      (ddSnapCreateCore env).2 = .error .snapStorageFailed ∧
      ∀ w, SnapEvent.storageSnap w ∉ (ddSnapCreateCore env).1) ∧
    (0 ≤ min env.maxStorageFT (env.storageTeamSize - 1) - env.storageFailures →
      (failCount env.storageSnapOks : Int) ≤ storageFaultTolerance env →
      env.tlogSnapOk = true → env.enableOk = true →
      (failCount env.coordSnapOks : Int) >
          min (max 0 ((env.coordWorkers.length : Int) / 2 - 1)) env.maxCoordFT →
      (ddSnapCreateCore env).2 = .error .snapCoordFailed) := by
  constructor
  · intro hneg
    have hneg2 : storageFaultTolerance env < 0 := hneg
    constructor
    · simp [ddSnapCreateCore, snapTryBody, hd, hgw, hc, hneg2, errorTriggersReenable]
    · intro w
      simp [ddSnapCreateCore, snapTryBody, hd, hgw, hc, hneg2, errorTriggersReenable,
        List.mem_append, List.mem_map]
  · intro h0 hsf htl hen hcf
    have h1 : ¬ storageFaultTolerance env < 0 := not_lt.mpr h0
    have h2 : ¬ (failCount env.storageSnapOks : Int) > storageFaultTolerance env :=
      not_lt.mpr hsf
    have h3 : (failCount env.coordSnapOks : Int) > coordFaultTolerance env := hcf
    simp [ddSnapCreateCore, snapTryBody, hd, hgw, hc, htl, hen, h1, h2, h3,
      errorTriggersReenable]

/-- Witness for `snapCore_fault_tolerances`: a storage team size of 0
makes the storage fault tolerance negative; one failed coordinator among
two exceeds the coordinator fault tolerance 0. -/
theorem snapCore_fault_tolerances_witness :
    (ddSnapCreateCore { tlogs := [1], storageTeamSize := 0, maxStorageFT := 1 }).2 =
      .error .snapStorageFailed ∧
    (ddSnapCreateCore { coordWorkers := [1, 2], coordSnapOks := [false] }).2 =
      .error .snapCoordFailed :=
  ⟨((snapCore_fault_tolerances { tlogs := [1], storageTeamSize := 0, maxStorageFT := 1 }
      rfl rfl rfl).1 (by decide)).1,
   (snapCore_fault_tolerances { coordWorkers := [1, 2], coordSnapOks := [false] }
      rfl rfl rfl).2 (by decide) (by decide) rfl rfl (by decide)⟩

@[simp] theorem enableCount_append (a b : List SnapEvent) (l : Nat) :
    enableCount (a ++ b) l = enableCount a l + enableCount b l := by
  simp [enableCount, List.filter_append]

@[simp] theorem enableCount_map_disablePop (ls : List Nat) (l : Nat) :
    enableCount (ls.map SnapEvent.disablePop) l = 0 := by
  simp [enableCount]

@[simp] theorem enableCount_map_storageSnap (ls : List Nat) (l : Nat) :
    enableCount (ls.map SnapEvent.storageSnap) l = 0 := by
  simp [enableCount]

@[simp] theorem enableCount_map_tlogSnap (ls : List Nat) (l : Nat) :
    enableCount (ls.map SnapEvent.tlogSnap) l = 0 := by
  simp [enableCount]

@[simp] theorem enableCount_map_coordSnap (ls : List Nat) (l : Nat) :
    enableCount (ls.map SnapEvent.coordSnap) l = 0 := by
  simp [enableCount]

@[simp] theorem enableCount_writeFlag_cons (evs : List SnapEvent) (l : Nat) :
    enableCount (SnapEvent.writeFlag :: evs) l = enableCount evs l := by
  simp [enableCount, List.filter_cons]

@[simp] theorem enableCount_map_enablePop (ls : List Nat) (l : Nat) :
    enableCount (ls.map SnapEvent.enablePop) l = ls.count l := by
  induction ls with
  | nil => rfl
  | cons x xs ih =>
    by_cases h : x = l <;>
      simp [enableCount, List.filter_cons, List.count_cons, h] at ih ⊢ <;> omega

/-- `ddSnapCreateCore` unfolded through the projections of the try
body. -/
theorem ddSnapCreateCore_eq (env : SnapEnv) :
    ddSnapCreateCore env =
      match (snapTryBody env).2 with
      | none => ((snapTryBody env).1, .ok ())
      | some e =>
        if errorTriggersReenable e then
          ((snapTryBody env).1 ++ env.tlogs.map .enablePop, .error e)
        else ((snapTryBody env).1, .error e) := by
  unfold ddSnapCreateCore
  rcases h : snapTryBody env with ⟨evs, r⟩
  cases r <;> simp [h]

/-- When the try body of a run raises a re-enable-triggering error and
had not itself sent any `enablePop`, the whole run sends exactly one
`enablePop` per occurrence of each local log. -/
theorem reenable_once_core (env : SnapEnv) (e : SnapError)
    (h2 : (snapTryBody env).2 = some e) (he : errorTriggersReenable e = true)
    (hP : ∀ l, enableCount (snapTryBody env).1 l = 0) :
    (∃ r, (ddSnapCreateCore env).2 = .error r ∧ errorTriggersReenable r = true) ∧
    ∀ l, enableCount (ddSnapCreateCore env).1 l = env.tlogs.count l := by
  rw [ddSnapCreateCore_eq, h2]
  simp only [he, if_pos]
  exact ⟨⟨e, rfl, he⟩, fun l => by
    simp [enableCount_append, hP, enableCount_map_enablePop]⟩

/-- A run in which every step succeeds but the actor is cancelled during
the coordinator snapshot wait (after the step-5 re-enable has run). -/
def snapEnvCancelledAtCoord : SnapEnv :=
  { tlogs := [1], coordWorkers := [1, 2, 3], cancelAt := some .coordWait }

/-- C6 counterexample: with a cancellation arriving during step 6, step 2
succeeded and a later step was cancelled, yet tlog popping is re-enabled
twice on the local log — the step-5 re-enable and the error-path
re-enable both run. -/
theorem snapCore_cancelled_after_enable_double_reenable :
    (ddSnapCreateCore snapEnvCancelledAtCoord).2 = .error .operationCancelled ∧
    enableCount (ddSnapCreateCore snapEnvCancelledAtCoord).1 1 = 2 := ⟨rfl, rfl⟩

/-- C6 amended: if step 2 succeeds and one of steps 2-4 fails — or the
actor is cancelled before the step-5 re-enable — then a
re-enable-triggering error propagates and tlog popping is re-enabled
exactly once on every local log; when the cancellation instead arrives at
or after step 5, the error-path re-enable runs in addition to the normal
step-5 one. -/
theorem snapCore_reenable_exactly_once (env : SnapEnv)
    (hd : env.disableOk = true)
    (hfail : (env.cancelAt = some .getWorkers ∨ env.cancelAt = some .storageWait ∨
              env.cancelAt = some .tlogWait) ∨
             (env.cancelAt = none ∧
               (env.getStorageWorkersOk = false ∨ storageFaultTolerance env < 0 ∨
                (failCount env.storageSnapOks : Int) > storageFaultTolerance env ∨
                env.tlogSnapOk = false))) :
    (∃ r, (ddSnapCreateCore env).2 = .error r ∧ errorTriggersReenable r = true) ∧
    ∀ l, enableCount (ddSnapCreateCore env).1 l = env.tlogs.count l := by
  rcases hfail with (hc | hc | hc) | ⟨hc, hf⟩
  · -- cancelled while getting the storage workers
    refine reenable_once_core env .operationCancelled ?_ rfl ?_ <;>
      simp [snapTryBody, hd, hc]
  · -- cancelled during the storage quorum wait (or an earlier storage failure)
    by_cases hg : env.getStorageWorkersOk
    · by_cases hs : storageFaultTolerance env < 0
      · refine reenable_once_core env .snapStorageFailed ?_ rfl ?_ <;>
          simp [snapTryBody, hd, hc, hg, hs]
      · refine reenable_once_core env .operationCancelled ?_ rfl ?_ <;>
          simp [snapTryBody, hd, hc, hg, hs]
    · refine reenable_once_core env .snapStorageFailed ?_ rfl ?_ <;>
        simp [snapTryBody, hd, hc, hg]
  · -- cancelled during the tlog snapshot wait (or an earlier storage failure)
    by_cases hg : env.getStorageWorkersOk
    · by_cases hs : storageFaultTolerance env < 0
      · refine reenable_once_core env .snapStorageFailed ?_ rfl ?_ <;>
          simp [snapTryBody, hd, hc, hg, hs]
      · by_cases hq : (failCount env.storageSnapOks : Int) > storageFaultTolerance env
        · refine reenable_once_core env .snapStorageFailed ?_ rfl ?_ <;>
            simp [snapTryBody, hd, hc, hg, hs, hq]
        · refine reenable_once_core env .operationCancelled ?_ rfl ?_ <;>
            simp [snapTryBody, hd, hc, hg, hs, hq]
    · refine reenable_once_core env .snapStorageFailed ?_ rfl ?_ <;>
        simp [snapTryBody, hd, hc, hg]
  · -- no cancellation: a step 2-4 failure
    rcases hf with hg | hs | hq | ht
    · refine reenable_once_core env .snapStorageFailed ?_ rfl ?_ <;>
        simp [snapTryBody, hd, hc, hg]
    · by_cases hg : env.getStorageWorkersOk
      · refine reenable_once_core env .snapStorageFailed ?_ rfl ?_ <;>
          simp [snapTryBody, hd, hc, hg, hs]
      · refine reenable_once_core env .snapStorageFailed ?_ rfl ?_ <;>
          simp [snapTryBody, hd, hc, hg]
    · by_cases hg : env.getStorageWorkersOk
      · by_cases hs : storageFaultTolerance env < 0
        · refine reenable_once_core env .snapStorageFailed ?_ rfl ?_ <;>
            simp [snapTryBody, hd, hc, hg, hs]
        · refine reenable_once_core env .snapStorageFailed ?_ rfl ?_ <;>
            simp [snapTryBody, hd, hc, hg, hs, hq]
      · refine reenable_once_core env .snapStorageFailed ?_ rfl ?_ <;>
          simp [snapTryBody, hd, hc, hg]
    · by_cases hg : env.getStorageWorkersOk
      · by_cases hs : storageFaultTolerance env < 0
        · refine reenable_once_core env .snapStorageFailed ?_ rfl ?_ <;>
            simp [snapTryBody, hd, hc, hg, hs]
        · by_cases hq : (failCount env.storageSnapOks : Int) > storageFaultTolerance env
          · refine reenable_once_core env .snapStorageFailed ?_ rfl ?_ <;>
              simp [snapTryBody, hd, hc, hg, hs, hq]
          · refine reenable_once_core env .snapTLogFailed ?_ rfl ?_ <;>
              simp [snapTryBody, hd, hc, hg, hs, hq, ht]
      · refine reenable_once_core env .snapStorageFailed ?_ rfl ?_ <;>
          simp [snapTryBody, hd, hc, hg]

/-- Witness for `snapCore_reenable_exactly_once`: a failed tlog snapshot
re-enables popping exactly once on the single local log. -/
theorem snapCore_reenable_exactly_once_witness :
    enableCount (ddSnapCreateCore { tlogs := [7], tlogSnapOk := false }).1 7 = 1 :=
  ((snapCore_reenable_exactly_once { tlogs := [7], tlogSnapOk := false }
      rfl (Or.inr ⟨rfl, Or.inr (Or.inr (Or.inr rfl))⟩)).2 7).trans (by decide)

theorem firstReach_pred (p : Nat → Bool) (fuel : Nat) :
    ∀ start, p (start + fuel) = true → p (firstReach p start fuel) = true := by
  induction fuel with
  | zero => intro start h; simpa using h
  | succ n ih =>
    intro start h
    by_cases hs : p start
    · simp [firstReach, hs]
    · simp only [firstReach, hs, if_false]
      exact ih (start + 1) (by
        have he : start + 1 + n = start + (n + 1) := by omega
        rw [he]; exact h)

theorem firstReach_min (p : Nat → Bool) (fuel : Nat) :
    ∀ start t, start ≤ t → t < firstReach p start fuel → p t = false := by
  induction fuel with
  | zero =>
    intro start t h1 h2
    simp [firstReach] at h2
    omega
  | succ n ih =>
    intro start t h1 h2
    by_cases hs : p start
    · simp [firstReach, hs] at h2
      omega
    · simp only [firstReach, hs, if_false] at h2
      rcases Nat.eq_or_lt_of_le h1 with he | hl
      · rw [← he]
        simpa using hs
      · exact ih (start + 1) t hl h2

theorem time_le_maxAll (futures : List (Nat × Bool)) :
    ∀ f ∈ futures, f.1 ≤ maxAll futures := by
  induction futures with
  | nil => simp
  | cons x xs ih =>
    intro f hf
    rcases List.mem_cons.mp hf with he | hm
    · rw [he]; exact Nat.le_max_left _ _
    · exact Nat.le_trans (ih f hm) (Nat.le_max_right _ _)

theorem countLE_maxAll (futures : List (Nat × Bool)) :
    countLE futures (maxAll futures) = presentCount futures := by
  unfold countLE presentCount
  congr 1
  apply List.filter_congr
  intro f hf
  simp [time_le_maxAll futures f hf]

/-- C3: `waitForMost` succeeds whenever `n - faultTolerance` results are
present; with `waitMultiplier = 0` it returns exactly at the earliest time
at which that quorum of present results has completed (so it does not
wait for the slower futures), and when more than `faultTolerance` futures
fail with an absent result it throws the supplied error. -/
theorem waitForMost_quorum (futures : List (Nat × Bool)) (k mult : Nat) :
    (futures.length - k ≤ presentCount futures →
      waitForMost futures k 0 = .ok (quorumTime futures (futures.length - k)) ∧
      futures.length - k ≤ countLE futures (quorumTime futures (futures.length - k)) ∧
      (∀ t, t < quorumTime futures (futures.length - k) →
        countLE futures t < futures.length - k) ∧
      ∃ t, waitForMost futures k mult = .ok t) ∧
    (k < futures.length - presentCount futures →
      waitForMost futures k mult = .error ()) := by
  constructor
  · intro h
    have hq : decide (futures.length - k ≤ countLE futures (0 + maxAll futures)) = true := by
      simp only [Nat.zero_add, countLE_maxAll futures]
      exact decide_eq_true h
    have hpred := firstReach_pred
      (fun t => decide (futures.length - k ≤ countLE futures t)) (maxAll futures) 0 hq
    refine ⟨?_, ?_, ?_, ?_⟩
    · simp only [waitForMost, if_pos h, Nat.mul_zero, Nat.add_zero]
      rw [Nat.min_eq_left (Nat.le_max_left _ _)]
    · exact of_decide_eq_true hpred
    · intro t ht
      have hmin := firstReach_min (fun t => decide (futures.length - k ≤ countLE futures t))
        (maxAll futures) 0 t (Nat.zero_le t) ht
      have h2 : ¬ (futures.length - k ≤ countLE futures t) := of_decide_eq_false hmin
      omega
    · have hok : waitForMost futures k mult =
          .ok (min (quorumTime futures (futures.length - k) +
                quorumTime futures (futures.length - k) * mult)
              (max (quorumTime futures (futures.length - k)) (maxAll futures))) := by
        simp [waitForMost, h]
      exact ⟨_, hok⟩
  · intro h
    have hle : presentCount futures ≤ futures.length := List.length_filter_le _ _
    have h2 : ¬ (futures.length - k ≤ presentCount futures) := by omega
    simp [waitForMost, h2]

/-- Witness for `waitForMost_quorum`: the unit test's futures completing
at 1 s, 2 s, 3 s with `faultTolerance = 1` and `waitMultiplier = 0`
return at 2 s, strictly before the 3 s future completes; with one failed
future and `faultTolerance = 0` the supplied error is thrown. -/
theorem waitForMost_quorum_witness :
    (waitForMost [(1, true), (2, true), (3, true)] 1 0 = .ok 2 ∧ 2 < 3) ∧
    waitForMost [(1, true), (2, true), (1, false)] 0 5 = .error () :=
  ⟨⟨(((waitForMost_quorum [(1, true), (2, true), (3, true)] 1 0).1 (by decide)).1).trans
      (congrArg Except.ok (by decide)), by decide⟩,
   (waitForMost_quorum [(1, true), (2, true), (1, false)] 0 5).2 (by decide)⟩

/-- Every relocation the shard-seeding loop emits begins at the key of
one of the scanned shards. -/
theorem seedShards_first_mem (cfg : DDConfig) :
    ∀ (l : List DDShardInfo) (rs : RelocateShard), rs ∈ seedShards cfg l →
      rs.keys.first ∈ l.map (fun sh => sh.key) := by
  intro l
  induction l with
  | nil => intro rs h; simp [seedShards] at h
  | cons a rest ih =>
    intro rs h
    cases rest with
    | nil => simp [seedShards] at h
    | cons b rest2 =>
      rw [seedShards] at h
      rcases List.mem_append.mp h with h1 | h2
      · by_cases hc : (a.hasDest && decide (a.destId = anonymousShardId)) = true
        · simp only [hc, if_true, List.mem_singleton] at h1
          rw [h1]
          simp
        · simp [hc] at h1
      · have hm := ih rs h2
        simp only [List.map_cons, List.mem_cons] at hm ⊢
        exact Or.inr hm

/-- C9: for every initial shard that has a destination with an anonymous
`destId`, the seeding loop enqueues exactly one relocation for that
shard's range — with priority `PRIORITY_TEAM_UNHEALTHY` when a source
team's size differs from `storageTeamSize` (the remote team counting only
with more than one usable region) and `PRIORITY_RECOVER_MOVE`
otherwise. -/
theorem seedShards_anonymous_dest (cfg : DDConfig) (shards : List DDShardInfo)
    (i : Nat) (s next : DDShardInfo)
    (hnodup : (shards.map (fun sh => sh.key)).Nodup)
    (hs : shards[i]? = some s) (hnext : shards[i + 1]? = some next)
    (hdest : s.hasDest = true) (hanon : s.destId = anonymousShardId) :
    (seedShards cfg shards).filter (fun rs => rs.keys.first = s.key) =
      [{ keys := { first := s.key, last := next.key },
         priority :=
           if s.primarySrc.length ≠ cfg.storageTeamSize ∨
               (cfg.usableRegions > 1 ∧ s.remoteSrc.length ≠ cfg.storageTeamSize) then
             PRIORITY_TEAM_UNHEALTHY
           else PRIORITY_RECOVER_MOVE }] := by
  induction shards generalizing i with
  | nil => simp at hs
  | cons a rest ih =>
    cases rest with
    | nil =>
      cases i with
      | zero => simp at hnext
      | succ j => simp at hs
    | cons b rest2 =>
      have hnodup2 : ((b :: rest2).map (fun sh => sh.key)).Nodup := by
        simp only [List.map_cons, List.nodup_cons] at hnodup ⊢
        exact ⟨hnodup.2.1, hnodup.2.2⟩
      have hanotin : a.key ∉ (b :: rest2).map (fun sh => sh.key) := by
        simp only [List.map_cons, List.nodup_cons] at hnodup
        simpa using hnodup.1
      cases i with
      | zero =>
        have hsa : a = s := by simpa using hs
        have hnb : b = next := by simpa using hnext
        subst hsa
        subst hnb
        have hc : (a.hasDest && decide (a.destId = anonymousShardId)) = true := by
          simp [hdest, hanon]
        rw [seedShards, List.filter_append]
        have htail : (seedShards cfg (b :: rest2)).filter
            (fun rs => rs.keys.first = a.key) = [] := by
          apply List.filter_eq_nil_iff.mpr
          intro rs hrs
          have hmem := seedShards_first_mem cfg _ rs hrs
          simp only [decide_eq_true_eq]
          intro he
          exact hanotin (he ▸ hmem)
        rw [htail]
        simp only [hc, if_true, List.append_nil, List.filter_cons, List.filter_nil]
        by_cases hp : a.primarySrc.length = cfg.storageTeamSize <;>
          by_cases hu : cfg.usableRegions > 1 <;>
            by_cases hr : a.remoteSrc.length = cfg.storageTeamSize <;>
              simp [hp, hu, hr]
      | succ j =>
        have hs2 : (b :: rest2)[j]? = some s := by simpa using hs
        have hnext2 : (b :: rest2)[j + 1]? = some next := by simpa using hnext
        have hkeyne : a.key ≠ s.key := by
          have hmem : s.key ∈ (b :: rest2).map (fun sh => sh.key) :=
            List.mem_map_of_mem _ (List.getElem?_mem hs2)
          intro he
          exact hanotin (he ▸ hmem)
        rw [seedShards, List.filter_append]
        have hhead : ((if a.hasDest && decide (a.destId = anonymousShardId) then
            [({ keys := { first := a.key, last := b.key },
                priority :=
                  if (if !(decide (a.primarySrc.length ≠ cfg.storageTeamSize)) &&
                        decide (cfg.usableRegions > 1) then
                      decide (a.remoteSrc.length ≠ cfg.storageTeamSize)
                    else decide (a.primarySrc.length ≠ cfg.storageTeamSize)) = true then
                    PRIORITY_TEAM_UNHEALTHY
                  else PRIORITY_RECOVER_MOVE } : RelocateShard)]
          else []).filter (fun rs => rs.keys.first = s.key)) = [] := by
          by_cases hc : (a.hasDest && decide (a.destId = anonymousShardId)) = true <;>
            simp [hc, hkeyne]
        rw [hhead]
        simpa using ih j hnodup2 hs2 hnext2

/-- Witness for `seedShards_anonymous_dest`: a two-shard snapshot with an
undersized primary source team yields one unhealthy-priority recover
move. -/
theorem seedShards_anonymous_dest_witness :
    (seedShards { storageTeamSize := 3, usableRegions := 1 }
        [{ key := [0], primarySrc := [1, 2], primaryDest := [3, 4, 5], hasDest := true },
         { key := allKeysEnd }]).filter (fun rs => rs.keys.first = [0]) =
      [{ keys := { first := [0], last := allKeysEnd },
         priority := PRIORITY_TEAM_UNHEALTHY }] :=
  (seedShards_anonymous_dest { storageTeamSize := 3, usableRegions := 1 }
      [{ key := [0], primarySrc := [1, 2], primaryDest := [3, 4, 5], hasDest := true },
       { key := allKeysEnd }]
      0 { key := [0], primarySrc := [1, 2], primaryDest := [3, 4, 5], hasDest := true }
      { key := allKeysEnd } (by decide) rfl rfl rfl rfl).trans (by decide)

end DD
